import Mathlib

/-!
Verification of the career-readiness score frontend (multi-step wizard).
The definitions below are shallow embeddings of the JavaScript source:
`App.jsx` (wizard controller and scoring payload builder),
`CertificationsForm.jsx`, `ProjectsForm`, `InternshipsForm`, `SkillsForm`,
and `ResumeUpload` (intake forms and upload drop handlers).
JavaScript `x || d` fallbacks are modelled by explicit truthiness helpers;
absent JSON fields are modelled with `Option`.
-/

namespace Score

/-- JS `o || d` for a possibly-absent string: absent or empty gives `d`. -/
def jsOrStr (o : Option String) (d : String) : String :=
  match o with
  | none => d
  | some s => if s = "" then d else s

/-- JS `o || d` for a possibly-absent number: absent or `0` gives `d`. -/
def jsOrNat (o : Option Nat) (d : Nat) : Nat :=
  match o with
  | none => d
  | some n => if n = 0 then d else n

/-- JS truthiness of a possibly-absent boolean (`b || false`). -/
def jsOrBool (o : Option Bool) : Bool :=
  match o with
  | none => false
  | some b => b

/-- JS truthiness of a possibly-absent number (used for `result.total_words`). -/
def jsTruthyNat (o : Option Nat) : Bool :=
  match o with
  | none => false
  | some n => n != 0

/-- JS truthiness of a possibly-absent string (used for `result.cert_name`). -/
def jsTruthyStr (o : Option String) : Bool :=
  match o with
  | none => false
  | some s => s != ""

/-- JS `String.prototype.trim()`: drop leading and trailing whitespace.
Embedded over the character list so that the kernel can evaluate it. -/
def jsTrim (s : String) : String :=
  String.mk (((s.data.dropWhile Char.isWhitespace).reverse.dropWhile
    Char.isWhitespace).reverse)

/-- Character-list kernel of JS `String.prototype.split(',')`: a comma closes
the current segment; the empty string yields one empty segment. -/
def splitCommaList (l : List Char) : List (List Char) :=
  l.foldr
    (fun c acc =>
      if c = ',' then [] :: acc
      else
        match acc with
        | [] => [[c]]
        | h :: t => (c :: h) :: t)
    [[]]

/-- JS `s.split(',')`. -/
def jsSplitComma (s : String) : List String :=
  (splitCommaList s.data).map String.mk

/-- Intake certification record (`{ name, issuer, year }`).
Optional fields are `Option` so that absence is expressible. -/
structure Certification where
  name : String
  issuer : Option String
  year : Option Nat
deriving Repr, DecidableEq

/-- Intake project record (`{ title, description, techStack, githubUrl }`). -/
structure Project where
  title : String
  description : Option String
  techStack : Option (List String)
  githubUrl : Option String
deriving Repr, DecidableEq

/-- Intake internship record
(`{ company, role, durationMonths, achievements, hasCertificate }`). -/
structure Internship where
  company : String
  role : Option String
  durationMonths : Option Nat
  achievements : Option String
  hasCertificate : Option Bool
deriving Repr, DecidableEq

/-- The wizard's aggregate `data` state from `App.jsx`
(`skills, certifications, projects, internships, resumeText`). -/
structure IntakeState where
  skills : List String
  certifications : List Certification
  projects : List Project
  internships : List Internship
  resumeText : String
deriving Repr, DecidableEq

/-- Certification entry of the scoring request payload. -/
structure CertPayload where
  name : String
  issuer : String
  year : Nat
deriving Repr, DecidableEq

/-- Project entry of the scoring request payload. -/
structure ProjectPayload where
  title : String
  description : String
  tech_stack : List String
  github_url : String
deriving Repr, DecidableEq

/-- Internship entry of the scoring request payload. -/
structure InternshipPayload where
  company : String
  role : String
  duration_months : Nat
  achievements : String
  has_certificate : Bool
deriving Repr, DecidableEq

/-- The JSON body POSTed to `/api/score/calculate`. -/
structure ScorePayload where
  skills : List String
  certifications : List CertPayload
  projects : List ProjectPayload
  internships : List InternshipPayload
  resume_text : String
deriving Repr, DecidableEq

/-- The `payload` object built inside `calculateScore` (App.jsx lines 38-54),
field by field: `issuer: c.issuer || ''`, `year: c.year || 2024`,
`tech_stack: p.techStack || []`, `duration_months: i.durationMonths || 1`,
`resume_text: data.resumeText || ''`, etc. -/
def calculateScorePayload (d : IntakeState) : ScorePayload :=
  { skills := d.skills
  , certifications := d.certifications.map (fun c =>
      { name := c.name, issuer := jsOrStr c.issuer "", year := jsOrNat c.year 2024 })
  , projects := d.projects.map (fun p =>
      { title := p.title
      , description := jsOrStr p.description ""
      , tech_stack := p.techStack.getD []
      , github_url := jsOrStr p.githubUrl "" })
  , internships := d.internships.map (fun i =>
      { company := i.company
      , role := jsOrStr i.role ""
      , duration_months := jsOrNat i.durationMonths 1
      , achievements := jsOrStr i.achievements ""
      , has_certificate := jsOrBool i.hasCertificate })
  , resume_text := if d.resumeText = "" then "" else d.resumeText }

/-- Top-level `App` state: step cursor, intake data, stored report, busy flag.
The report type `R` is abstract: the client stores the parsed response as-is. -/
structure AppState (R : Type) where
  step : Nat
  data : IntakeState
  results : Option R
  loading : Bool
deriving Repr

/-- The `calculateScore` handler of `App.jsx`: builds the payload from the
current intake data, performs the request (`respond` stands for the network
round-trip, which either yields a parsed report or throws), and on success
stores the report and moves to step 5; on failure only alerts. The busy flag
is set for the duration of the attempt and cleared afterwards in both cases. -/
def calculateScore {R : Type} (s : AppState R) (respond : ScorePayload → Except Unit R) :
    AppState R :=
  match respond (calculateScorePayload s.data) with
  | Except.ok r => { s with results := some r, step := 5, loading := false }
  | Except.error _ => { s with loading := false }

/-- The stepper button's `onClick` (App.jsx line 108):
`if (i <= step || isDone) setStep(i)` where `isDone = i < step`. -/
def stepperJump (step i : Nat) : Nat :=
  if i ≤ step ∨ i < step then i else step

/-- `addCert` of `CertificationsForm.jsx`: rejects an empty trimmed name,
otherwise appends `{ name: name.trim(), issuer: issuer.trim(), year }`. -/
def addCert (certs : List Certification) (name issuer : String) (year : Nat) :
    List Certification :=
  if jsTrim name = "" then certs
  else certs ++ [{ name := jsTrim name, issuer := some (jsTrim issuer), year := some year }]

/-- `addProject` of `ProjectsForm`: rejects an empty trimmed title, otherwise
appends the record with trimmed strings and the tech stack split on commas,
each segment trimmed, empty segments dropped (`split(',').map(trim).filter(Boolean)`). -/
def addProject (projects : List Project)
    (title description techStack githubUrl : String) : List Project :=
  if jsTrim title = "" then projects
  else projects ++
    [{ title := jsTrim title
     , description := some (jsTrim description)
     , techStack := some (((jsSplitComma techStack).map jsTrim).filter (fun s => s != ""))
     , githubUrl := some (jsTrim githubUrl) }]

/-- `addInternship` of `InternshipsForm`: rejects an empty trimmed company,
otherwise appends the form record with company/role/achievements trimmed. -/
def addInternship (internships : List Internship) (company role : String)
    (durationMonths : Nat) (achievements : String) (hasCertificate : Bool) :
    List Internship :=
  if jsTrim company = "" then internships
  else internships ++
    [{ company := jsTrim company
     , role := some (jsTrim role)
     , durationMonths := some durationMonths
     , achievements := some (jsTrim achievements)
     , hasCertificate := some hasCertificate }]

/-- Index-aware filter kernel of `list.filter((_, i) => i !== idx)`:
`i` is the running index of the element being examined. -/
def removeByIdxAux {α : Type} (idx : Nat) : Nat → List α → List α
  | _, [] => []
  | i, x :: xs =>
      if i != idx then x :: removeByIdxAux idx (i + 1) xs
      else removeByIdxAux idx (i + 1) xs

/-- `list.filter((_, i) => i !== idx)`, the shared remove-by-index idiom. -/
def removeByIdx {α : Type} (l : List α) (idx : Nat) : List α :=
  removeByIdxAux idx 0 l

/-- `removeCert` of `CertificationsForm.jsx`. -/
def removeCert (certs : List Certification) (idx : Nat) : List Certification :=
  removeByIdx certs idx

/-- `removeProject` of `ProjectsForm`. -/
def removeProject (projects : List Project) (idx : Nat) : List Project :=
  removeByIdx projects idx

/-- `removeInternship` of `InternshipsForm`. -/
def removeInternship (internships : List Internship) (idx : Nat) : List Internship :=
  removeByIdx internships idx

/-- `addSkill` of `SkillsForm.jsx`: `if (!skills.includes(skill)) onChange([...skills, skill])`. -/
def addSkill (skills : List String) (skill : String) : List String :=
  if skills.contains skill then skills else skills ++ [skill]

/-- The "Clear All" button of `SkillsForm.jsx`: `onChange([])`. -/
def clearAll (_ : List String) : List String := []

/-- The `match` object of a certificate-scan response (`{ tier, tier_label }`). -/
structure TierMatch where
  tier : String
  tier_label : Option String
deriving Repr, DecidableEq

/-- A parsed `/api/score/certifications/scan` response. The JS field `match`
is a reserved word in Lean, so it is embedded as `match_`. -/
structure CertScanResult where
  identified : Bool
  cert_name : Option String
  match_ : Option TierMatch
  extracted_text_preview : Option String
deriving Repr, DecidableEq

/-- The `scanResult` local state of `CertificationsForm`: either a parsed
response or the inline error object `{ error: '...' }` set by the catch. -/
inductive CertScanDisplay where
  | result (r : CertScanResult)
  | error (msg : String)
deriving Repr, DecidableEq

/-- State visible after a certificate drop: the parent `certs` list, the
`scanning` busy flag, and the `scanResult` display state. -/
structure CertDropResult where
  certs : List Certification
  scanning : Bool
  scanResult : Option CertScanDisplay
deriving Repr, DecidableEq

/-- The inline error shown by `CertificationsForm`'s render
(`{scanResult.error && <p>...}`): present exactly when `scanResult` holds
the catch's error object. -/
def certInlineError (s : CertDropResult) : Option String :=
  match s.scanResult with
  | some (CertScanDisplay.error m) => some m
  | _ => none

/-- One iteration of the `for` loop in `CertificationsForm.onDrop`, processing
one file's fetch outcome. `captured` is the `certs` prop captured by the
`useCallback` closure: every `onChange` in the same drop appends to it.
On a throw, the catch sets the inline error object; in all branches the
busy flag ends cleared. On `identified && cert_name` the scanned record
`{ name: cert_name, issuer: match?.tier_label || '', year: 2024 }` is
appended directly, without the manual add's trim gate. -/
def certProcessFile (captured : List Certification) (st : CertDropResult)
    (response : Except Unit CertScanResult) : CertDropResult :=
  match response with
  | Except.error _ =>
      { st with scanning := false
              , scanResult := some (CertScanDisplay.error "Failed to scan certificate file.") }
  | Except.ok r =>
      if r.identified && jsTruthyStr r.cert_name then
        { st with scanning := false
                , scanResult := some (CertScanDisplay.result r)
                , certs := captured ++
                    [{ name := jsOrStr r.cert_name ""
                     , issuer := some (jsOrStr (r.match_.bind TierMatch.tier_label) "")
                     , year := some 2024 }] }
      else
        { st with scanning := false, scanResult := some (CertScanDisplay.result r) }

/-- The whole `CertificationsForm.onDrop`: fold the loop body over the fetch
outcome of each accepted file. -/
def certOnDrop (captured : List Certification)
    (responses : List (Except Unit CertScanResult)) : CertDropResult :=
  responses.foldl (certProcessFile captured)
    { certs := captured, scanning := false, scanResult := none }

/-- A parsed `/api/score/resume` response
(`{ score, section_scores, total_words, suggestions }`). -/
structure ResumeScanResult where
  score : Option Nat
  section_scores : Option (List (String × Nat))
  total_words : Option Nat
  suggestions : Option (List String)
deriving Repr, DecidableEq

/-- The state visible around `ResumeUpload`: the parent-owned `resumeText`
prop plus the component's `uploading`, `fileName` and `preview` hooks. -/
structure ResumeFormState where
  resumeText : String
  uploading : Bool
  fileName : Option String
  preview : Option ResumeScanResult
deriving Repr, DecidableEq

/-- `ResumeUpload.onDrop`: takes `acceptedFiles[0]` (early return when none),
records the file name, then on a successful fetch stores the preview and —
once the `FileReader` fires — replaces `resumeText` with the marker string
`[Resume uploaded: name]\n` plus the joined suggestions when `total_words`
is truthy, and with `''` otherwise. The catch only logs to the console.
The busy flag is cleared after the attempt in both branches. -/
def resumeOnDrop (s : ResumeFormState) (acceptedFiles : List String)
    (response : Except Unit ResumeScanResult) : ResumeFormState :=
  match acceptedFiles.head? with
  | none => s
  | some fname =>
      let s1 := { s with fileName := some fname }
      match response with
      | Except.error _ => { s1 with uploading := false }
      | Except.ok r =>
          let newText :=
            if jsTruthyNat r.total_words then
              "[Resume uploaded: " ++ fname ++ "]\n" ++
                jsOrStr (r.suggestions.map (String.intercalate "\n")) ""
            else ""
          { s1 with uploading := false, preview := some r, resumeText := newText }

/-- The inline error shown by `ResumeUpload`'s render: the component's JSX
renders only the dropzone, the ATS preview and the paste textarea — it has
no error display element at all, so the projection is always `none`. -/
def resumeInlineError (_ : ResumeFormState) : Option String := none

/-! ## Helper lemmas -/

theorem removeByIdxAux_gt {α : Type} (l : List α) (idx : Nat) :
    ∀ n, idx < n → removeByIdxAux idx n l = l := by
  induction l with
  | nil => intro n _; rfl
  | cons x xs ih =>
      intro n hn
      have hx : (n != idx) = true := by simp only [bne_iff_ne, ne_eq]; omega
      simp [removeByIdxAux, hx, ih (n + 1) (Nat.lt_succ_of_lt hn)]

theorem removeByIdxAux_spec {α : Type} (l : List α) (idx : Nat) :
    ∀ n, n ≤ idx → idx - n < l.length →
      removeByIdxAux idx n l = l.take (idx - n) ++ l.drop (idx - n + 1) := by
  induction l with
  | nil => intro n _ h; simp at h
  | cons x xs ih =>
      intro n hn hlen
      by_cases he : n = idx
      · subst he
        simp [removeByIdxAux, Nat.sub_self,
          removeByIdxAux_gt xs n (n + 1) (Nat.lt_succ_self n)]
      · have hlt : n < idx := Nat.lt_of_le_of_ne hn he
        have hx : (n != idx) = true := by simp only [bne_iff_ne, ne_eq]; omega
        obtain ⟨k, hk⟩ : ∃ k, idx - n = k + 1 := ⟨idx - n - 1, by omega⟩
        have hk2 : idx - (n + 1) = k := by omega
        have hlen2 : idx - (n + 1) < xs.length := by
          simp only [List.length_cons] at hlen; omega
        have hrec := ih (n + 1) (by omega) hlen2
        simp [removeByIdxAux, hx, hrec, hk2, hk, List.take_succ_cons,
          List.drop_succ_cons]

theorem removeByIdx_spec {α : Type} (l : List α) (idx : Nat) (h : idx < l.length) :
    removeByIdx l idx = l.take idx ++ l.drop (idx + 1) := by
  have := removeByIdxAux_spec l idx 0 (Nat.zero_le idx) (by simpa using h)
  simpa [removeByIdx] using this

theorem removeByIdx_length {α : Type} (l : List α) (idx : Nat) (h : idx < l.length) :
    (removeByIdx l idx).length = l.length - 1 := by
  rw [removeByIdx_spec l idx h]
  simp only [List.length_append, List.length_take, List.length_drop]
  omega

theorem certProcessFile_scanning (captured : List Certification)
    (st : CertDropResult) (r : Except Unit CertScanResult) :
    (certProcessFile captured st r).scanning = false := by
  cases r with
  | error e => rfl
  | ok v =>
      by_cases hc : (v.identified && jsTruthyStr v.cert_name) = true
      · simp [certProcessFile, hc]
      · simp [certProcessFile, hc]

theorem certFold_scanning (captured : List Certification) :
    ∀ (rs : List (Except Unit CertScanResult)) (st : CertDropResult),
      st.scanning = false →
      (rs.foldl (certProcessFile captured) st).scanning = false := by
  intro rs
  induction rs with
  | nil => intro st h; simpa using h
  | cons r rs ih =>
      intro st _
      simpa [List.foldl_cons] using
        ih (certProcessFile captured st r) (certProcessFile_scanning captured st r)

/-! ## Claim theorems -/

/-- C1, counterexample: for an intake with one record per category and every
optional field absent, the scoring payload's internship entry carries
`duration_months = 1`, not the claimed documented default of 3 — the payload
builder uses `i.durationMonths || 1`. -/
theorem claim1_counterexample :
    (calculateScorePayload
      { skills := ["Python"]
      , certifications := [{ name := "AWS", issuer := none, year := none }]
      , projects := [{ title := "Proj", description := none, techStack := none,
                       githubUrl := none }]
      , internships := [{ company := "Acme", role := none, durationMonths := none,
                          achievements := none, hasCertificate := none }]
      , resumeText := "" }).internships.map InternshipPayload.duration_months = [1] ∧
    (1 : Nat) ≠ 3 := by
  exact ⟨rfl, by decide⟩

/-- C1 (amended): for every IntakeState with one record per category whose
optional fields are all absent, the scoring payload contains exactly one
corresponding entry per category with the defaults actually substituted by
the code: certification issuer `''` and year 2024; project description `''`,
tech stack `[]`, github url `''`; internship role `''`, achievements `''`,
certificate flag `false`, and `duration_months` defaulting to 1 (not the
documented 3); `resume_text` passed through verbatim. -/
theorem claim1_payload_roundtrip (sk : List String) (r n t co : String) :
    calculateScorePayload
      { skills := sk
      , certifications := [{ name := n, issuer := none, year := none }]
      , projects := [{ title := t, description := none, techStack := none,
                       githubUrl := none }]
      , internships := [{ company := co, role := none, durationMonths := none,
                          achievements := none, hasCertificate := none }]
      , resumeText := r } =
    { skills := sk
    , certifications := [{ name := n, issuer := "", year := 2024 }]
    , projects := [{ title := t, description := "", tech_stack := [], github_url := "" }]
    , internships := [{ company := co, role := "", duration_months := 1,
                        achievements := "", has_certificate := false }]
    , resume_text := r } := by
  unfold calculateScorePayload
  by_cases h : r = "" <;> simp [h, jsOrStr, jsOrNat, jsOrBool]

/-- C2, counterexample: a transport failure on the resume-scan path does NOT
surface an inline error state — the post-failure state records the file name
and nothing else, and the component has no error display at all. -/
theorem claim2_counterexample :
    resumeOnDrop
        { resumeText := "my resume", uploading := false, fileName := none, preview := none }
        ["cv.pdf"] (Except.error ()) =
      { resumeText := "my resume", uploading := false, fileName := some "cv.pdf",
        preview := none } ∧
    resumeInlineError
      (resumeOnDrop
        { resumeText := "my resume", uploading := false, fileName := none, preview := none }
        ["cv.pdf"] (Except.error ())) = none := by
  exact ⟨rfl, rfl⟩

/-- C2 (amended): a transport failure on the certificate-scan path surfaces
an inline error state and leaves the certifications list unchanged, while a
transport failure on the resume-scan path is absorbed silently with no inline
error state and leaves the resume text unchanged; neither handler raises to
the caller (both are total functions into plain states), and the busy flag
(`scanning` / `uploading`) is cleared after every attempt regardless of
outcome. -/
theorem claim2_upload_error_handling
    (captured : List Certification) (responses : List (Except Unit CertScanResult))
    (st : CertDropResult) (s : ResumeFormState) (fname : String) (rest : List String)
    (resp : Except Unit ResumeScanResult) :
    (certOnDrop captured responses).scanning = false ∧
    (certProcessFile captured st (Except.error ())).scanResult =
      some (CertScanDisplay.error "Failed to scan certificate file.") ∧
    (certProcessFile captured st (Except.error ())).certs = st.certs ∧
    certInlineError (certProcessFile captured st (Except.error ())) =
      some "Failed to scan certificate file." ∧
    (resumeOnDrop s (fname :: rest) resp).uploading = false ∧
    (resumeOnDrop s (fname :: rest) (Except.error ())).resumeText = s.resumeText ∧
    resumeInlineError (resumeOnDrop s (fname :: rest) (Except.error ())) = none := by
  refine ⟨certFold_scanning captured responses _ rfl, rfl, rfl, rfl, ?_, rfl, rfl⟩
  cases resp <;> rfl

/-- C3: submitting from step 4, a transport failure leaves the cursor at 4,
the intake data unchanged and the stored report still `none`, with the busy
flag cleared; a success moves the cursor to 5 and stores the received report
exactly, also leaving the intake data unchanged. -/
theorem claim3_submit_failure_preserves_state {R : Type} (s : AppState R)
    (respond : ScorePayload → Except Unit R)
    (h4 : s.step = 4) (h0 : s.results = none) :
    (respond (calculateScorePayload s.data) = Except.error () →
      (calculateScore s respond).step = 4 ∧
      (calculateScore s respond).data = s.data ∧
      (calculateScore s respond).results = none ∧
      (calculateScore s respond).loading = false) ∧
    (∀ r : R, respond (calculateScorePayload s.data) = Except.ok r →
      (calculateScore s respond).step = 5 ∧
      (calculateScore s respond).results = some r ∧
      (calculateScore s respond).data = s.data ∧
      (calculateScore s respond).loading = false) := by
  constructor
  · intro he
    simp [calculateScore, he, h4, h0]
  · intro r hr
    simp [calculateScore, hr]

/-- Witness for C3 at a concrete state and a failing transport. -/
theorem claim3_witness :
    (calculateScore (R := Nat)
      { step := 4
      , data := { skills := ["Python"], certifications := [], projects := [],
                  internships := [], resumeText := "" }
      , results := none, loading := true }
      (fun _ => Except.error ())).step = 4 ∧
    (calculateScore (R := Nat)
      { step := 4
      , data := { skills := ["Python"], certifications := [], projects := [],
                  internships := [], resumeText := "" }
      , results := none, loading := true }
      (fun _ => Except.error ())).results = none := by
  have h := claim3_submit_failure_preserves_state (R := Nat)
    { step := 4
    , data := { skills := ["Python"], certifications := [], projects := [],
                internships := [], resumeText := "" }
    , results := none, loading := true }
    (fun _ => Except.error ()) rfl rfl
  exact ⟨(h.1 rfl).1, (h.1 rfl).2.2.1⟩

/-- C4: when a successful resume-scan response has `total_words` zero or
absent, the drop handler sets the resume text to the empty string, erasing
whatever the user had pasted. -/
theorem claim4_zero_words_erases_text (s : ResumeFormState) (fname : String)
    (rest : List String) (r : ResumeScanResult)
    (h : r.total_words = none ∨ r.total_words = some 0) :
    (resumeOnDrop s (fname :: rest) (Except.ok r)).resumeText = "" := by
  rcases h with h | h <;> simp [resumeOnDrop, jsTruthyNat, h]

/-- Witness for C4: a zero-word scan response wipes previously pasted text. -/
theorem claim4_witness :
    (resumeOnDrop
      { resumeText := "pasted resume text", uploading := false, fileName := none,
        preview := none }
      ["cv.pdf"]
      (Except.ok { score := some 70, section_scores := none, total_words := some 0,
                   suggestions := some ["Add a summary"] })).resumeText = "" := by
  exact claim4_zero_words_erases_text _ "cv.pdf" [] _ (Or.inr rfl)

/-- C5: each add operation is a silent no-op when the required field (name /
title / company) trims to the empty string. -/
theorem claim5_empty_required_noop
    (certs : List Certification) (projects : List Project) (internships : List Internship)
    (cn ci : String) (cy : Nat) (pt pd pts pg : String)
    (ic ir : String) (idm : Nat) (ia : String) (ihc : Bool)
    (h1 : jsTrim cn = "") (h2 : jsTrim pt = "") (h3 : jsTrim ic = "") :
    addCert certs cn ci cy = certs ∧
    addProject projects pt pd pts pg = projects ∧
    addInternship internships ic ir idm ia ihc = internships := by
  refine ⟨?_, ?_, ?_⟩ <;> simp [addCert, addProject, addInternship, h1, h2, h3]

/-- Witness for C5 on whitespace-only required fields. -/
theorem claim5_witness :
    addCert [] "   " "Amazon" 2023 = [] ∧
    addProject [] " " "desc" "React" "url" = [] ∧
    addInternship [] "  " "Intern" 6 "did things" true = [] := by
  exact claim5_empty_required_noop [] [] [] "   " "Amazon" 2023 " " "desc" "React" "url"
    "  " "Intern" 6 "did things" true (by decide) (by decide) (by decide)

/-- C6: removing index i (0 ≤ i < n) from any intake list of length n yields
the list of length n−1 made of all original elements except the one at i, in
their original relative order (the take/drop decomposition). -/
theorem claim6_remove_by_index
    (cs : List Certification) (ps : List Project) (ns : List Internship)
    (i j k : Nat) (hi : i < cs.length) (hj : j < ps.length) (hk : k < ns.length) :
    (removeCert cs i = cs.take i ++ cs.drop (i + 1) ∧
      (removeCert cs i).length = cs.length - 1) ∧
    (removeProject ps j = ps.take j ++ ps.drop (j + 1) ∧
      (removeProject ps j).length = ps.length - 1) ∧
    (removeInternship ns k = ns.take k ++ ns.drop (k + 1) ∧
      (removeInternship ns k).length = ns.length - 1) :=
  ⟨⟨removeByIdx_spec cs i hi, removeByIdx_length cs i hi⟩,
   ⟨removeByIdx_spec ps j hj, removeByIdx_length ps j hj⟩,
   ⟨removeByIdx_spec ns k hk, removeByIdx_length ns k hk⟩⟩

/-- Witness for C6 on concrete lists. -/
theorem claim6_witness :
    removeCert [{ name := "A", issuer := none, year := none },
                { name := "B", issuer := none, year := none }] 1 =
      [{ name := "A", issuer := none, year := none }] ∧
    removeProject [{ title := "P", description := none, techStack := none,
                     githubUrl := none }] 0 = [] ∧
    removeInternship [{ company := "Acme", role := none, durationMonths := none,
                        achievements := none, hasCertificate := none }] 0 = [] := by
  have h := claim6_remove_by_index
    [{ name := "A", issuer := none, year := none },
     { name := "B", issuer := none, year := none }]
    [{ title := "P", description := none, techStack := none, githubUrl := none }]
    [{ company := "Acme", role := none, durationMonths := none,
       achievements := none, hasCertificate := none }]
    1 0 0 (by decide) (by decide) (by decide)
  refine ⟨?_, ?_, ?_⟩
  · rw [h.1.1]; decide
  · rw [h.2.1.1]; decide
  · rw [h.2.2.1]; decide

/-- C7: adding a skill already present leaves the skills list unchanged, and
"Clear All" yields the empty list regardless of prior contents. -/
theorem claim7_skills_set (skills : List String) (skill : String) :
    (skill ∈ skills → addSkill skills skill = skills) ∧ clearAll skills = [] := by
  constructor
  · intro h
    simp [addSkill, h]
  · rfl

/-- Witness for C7: duplicate add is a no-op, clearing empties the list. -/
theorem claim7_witness :
    addSkill ["Python", "SQL"] "Python" = ["Python", "SQL"] ∧
    clearAll ["Python", "SQL"] = [] := by
  have h := claim7_skills_set ["Python", "SQL"] "Python"
  exact ⟨h.1 (by decide), h.2⟩

/-- C8: the project add normalizes the tech-stack input by splitting on
commas, trimming each segment, discarding empty segments and preserving the
order of the rest (the result is a sublist of the trimmed segments with no
empty entries); all other string fields of the new record are trimmed. -/
theorem claim8_tech_stack_normalization (projects : List Project)
    (title description techStack githubUrl : String) (h : jsTrim title ≠ "") :
    ∃ l : List String,
      addProject projects title description techStack githubUrl =
        projects ++ [{ title := jsTrim title
                     , description := some (jsTrim description)
                     , techStack := some l
                     , githubUrl := some (jsTrim githubUrl) }] ∧
      l = ((jsSplitComma techStack).map jsTrim).filter (fun s => s != "") ∧
      (∀ x ∈ l, x ≠ "") ∧
      l.Sublist ((jsSplitComma techStack).map jsTrim) := by
  refine ⟨((jsSplitComma techStack).map jsTrim).filter (fun s => s != ""), ?_, rfl, ?_, ?_⟩
  · simp [addProject, h]
  · intro x hx
    have := List.of_mem_filter hx
    simpa using this
  · exact List.filter_sublist _

/-- Witness for C8 on a concrete messy tech-stack input. -/
theorem claim8_witness :
    addProject [] "My App " "a desc " " React, ,Node.js ," " url " =
      [{ title := "My App"
       , description := some "a desc"
       , techStack := some ["React", "Node.js"]
       , githubUrl := some "url" }] := by
  obtain ⟨l, h1, h2, _, _⟩ :=
    claim8_tech_stack_normalization [] "My App " "a desc " " React, ,Node.js ," " url "
      (by decide)
  rw [h2] at h1
  rw [h1]
  decide

/-- C9: a scan response with `identified` true and a non-empty `cert_name`
makes the certificate drop handler append exactly one record
`{ name := cert_name, issuer := tier_label (empty when `match` is absent),
year := 2024 }` to the captured certifications list; no trim gate is applied
(the name is taken as returned, whitespace and all). -/
theorem claim9_cert_auto_add (captured : List Certification) (st : CertDropResult)
    (r : CertScanResult) (s : String)
    (hid : r.identified = true) (hn : r.cert_name = some s) (hs : s ≠ "") :
    (certProcessFile captured st (Except.ok r)).certs =
      captured ++ [{ name := s
                   , issuer := some (jsOrStr (r.match_.bind TierMatch.tier_label) "")
                   , year := some 2024 }] ∧
    (r.match_ = none → jsOrStr (r.match_.bind TierMatch.tier_label) "" = "") := by
  have ht : jsTruthyStr r.cert_name = true := by simp [jsTruthyStr, hn, hs]
  constructor
  · simp [certProcessFile, hid, ht, jsOrStr, jsTruthyStr, hn, hs]
  · intro hm
    simp [hm, jsOrStr]

/-- Witness for C9 on the spec's own scenario (AWS Certified, Gold Tier). -/
theorem claim9_witness :
    (certProcessFile [] { certs := [], scanning := false, scanResult := none }
      (Except.ok
        { identified := true
        , cert_name := some "AWS Certified"
        , match_ := some { tier := "gold", tier_label := some "Gold Tier" }
        , extracted_text_preview := none })).certs =
      [{ name := "AWS Certified", issuer := some "Gold Tier", year := some 2024 }] := by
  have h := claim9_cert_auto_add [] { certs := [], scanning := false, scanResult := none }
    { identified := true
    , cert_name := some "AWS Certified"
    , match_ := some { tier := "gold", tier_label := some "Gold Tier" }
    , extracted_text_preview := none }
    "AWS Certified" rfl rfl (by decide)
  rw [h.1]
  decide

/-- C10: the stepper's jump is a no-op for a target beyond the current
cursor, and moves the cursor to exactly the target otherwise. -/
theorem claim10_stepper_jump (step i : Nat) :
    (step < i → stepperJump step i = step) ∧ (i ≤ step → stepperJump step i = i) := by
  constructor
  · intro h
    have hn : ¬(i ≤ step ∨ i < step) := by omega
    simp only [stepperJump]
    rw [if_neg hn]
  · intro h
    simp only [stepperJump]
    rw [if_pos (Or.inl h)]

/-- Witness for C10 at concrete cursor values. -/
theorem claim10_witness : stepperJump 3 5 = 3 ∧ stepperJump 3 2 = 2 :=
  ⟨(claim10_stepper_jump 3 5).1 (by decide), (claim10_stepper_jump 3 2).2 (by decide)⟩

end Score
